import Mathlib

/-!
Shallow embedding of `src/detail.cpp` of the autogradpp repository and
verification of its specification claims.

The file embeds the three visible pieces of the source: the CUDA hardware
query helpers (`getNumGPUs`, `hasCuda`, `hasCudnn`, `setSeed`), the
`backward` dispatch glue that builds the call into the external autograd
engine, and the `Variant` tagged union.  External state (the build-time
configuration macros, the outcome of `cudaGetDeviceCount`, the random
generator state) is passed explicitly; C++ exceptions are modelled with
`Except` or an `Option String` error component.
-/

namespace Autograd

/-- Build-time configuration: the `AT_CUDA_ENABLED()` and `AT_CUDNN_ENABLED()`
preprocessor switches of `ATen/Config.h`. -/
structure BuildConfig where
  cudaEnabled : Bool
  cudnnEnabled : Bool
deriving DecidableEq

/-- Environment for the CUDA runtime calls visible in the source: the error
code returned by `cudaGetDeviceCount`, the device count it writes on success,
and the `cudaGetErrorString` table. -/
structure CudaEnv where
  deviceCountResult : Nat
  deviceCount : Nat
  errorString : Nat → String

/-- The `cudaSuccess` error code of the CUDA runtime. -/
def cudaSuccess : Nat := 0

/-- The `cudaErrorNoDevice` error code of the CUDA runtime. -/
def cudaErrorNoDevice : Nat := 100

/-- Embedding of `getNumGPUs` (detail.cpp lines 44-61).  With CUDA enabled it
inspects the result of `cudaGetDeviceCount`: `cudaErrorNoDevice` yields 0, any
other failure throws a `std::runtime_error` built as
`"CUDA error (" + to_string(err) + "): " + cudaGetErrorString(err)`, and
success yields the enumerated count.  Without CUDA it returns 0. -/
def getNumGPUs (cfg : BuildConfig) (env : CudaEnv) : Except String Nat :=
  if cfg.cudaEnabled then
    if env.deviceCountResult = cudaErrorNoDevice then
      Except.ok 0
    else if env.deviceCountResult ≠ cudaSuccess then
      Except.error ("CUDA error (" ++ toString env.deviceCountResult ++ "): "
        ++ env.errorString env.deviceCountResult)
    else
      Except.ok env.deviceCount
  else
    Except.ok 0

/-- Embedding of `hasCuda` (detail.cpp lines 63-65): `getNumGPUs() > 0`,
propagating any exception from `getNumGPUs`. -/
def hasCuda (cfg : BuildConfig) (env : CudaEnv) : Except String Bool :=
  (getNumGPUs cfg env).map (fun n => decide (0 < n))

/-- Embedding of `hasCudnn` (detail.cpp lines 67-69):
`hasCuda() && AT_CUDNN_ENABLED()`, propagating any exception from
`hasCuda`. -/
def hasCudnn (cfg : BuildConfig) (env : CudaEnv) : Except String Bool :=
  (hasCuda cfg env).map (fun b => b && cfg.cudnnEnabled)

/-- Random generator state touched by `setSeed`: the CPU backend default
generator seed and the per-device CUDA generator seeds. -/
structure RngState where
  cpuSeed : Nat
  cudaSeeds : List Nat
deriving DecidableEq

/-- Embedding of `setSeed` (detail.cpp lines 35-42).  It always seeds the CPU
default generator first; then, only when CUDA is enabled at build time and
`getNumGPUs() > 0`, it calls `THCRandom_manualSeedAll`, which seeds every CUDA
generator with the same seed.  An exception from `getNumGPUs` propagates after
the CPU generator has already been reseeded, so the result is the new state
paired with an optional error message. -/
def setSeed (cfg : BuildConfig) (env : CudaEnv) (st : RngState) (seed : Nat) :
    RngState × Option String :=
  let st1 : RngState := { st with cpuSeed := seed }
  if cfg.cudaEnabled then
    match getNumGPUs cfg env with
    | Except.error e => (st1, some e)
    | Except.ok n =>
      if 0 < n then
        ({ st1 with cudaSeeds := st1.cudaSeeds.map (fun _ => seed) }, none)
      else
        (st1, none)
  else
    (st1, none)

/-- Abstract tensor contents: either the all-ones filling produced by
`at::ones_like`, or some other contents identified by an opaque tag. -/
inductive TensorContent where
  | ones
  | raw (id : Nat)
deriving DecidableEq

/-- Abstract model of `at::Tensor` as used by this file: a shape and opaque
contents.  The tensor algebra itself lives outside the source. -/
structure Tensor where
  shape : List Nat
  content : TensorContent
deriving DecidableEq

/-- Modelled from the spec: `at::ones_like` of the unseen tensor library — a
tensor of ones with the shape of its argument. -/
def ones_like (t : Tensor) : Tensor :=
  { shape := t.shape, content := TensorContent.ones }

/-- Abstract model of `autograd::Variable`: wrapped tensor data, the gradient
function edge (`grad_fn`, an opaque identifier, absent for leaves), the output
number, and the `requires_grad` flag.  The variable implementation lives
outside the source. -/
structure Variable where
  data : Tensor
  grad_fn : Option Nat
  output_nr : Nat
  requires_grad : Bool
deriving DecidableEq

/-- Modelled from the spec: the `Variable(Tensor)` conversion of the unseen
tensor library, wrapping a raw tensor as a leaf variable. -/
def Variable.ofTensor (t : Tensor) : Variable :=
  { data := t, grad_fn := none, output_nr := 0, requires_grad := false }

/-- Modelled from the spec: the `Var` helper (declared outside `src/`) that
builds a `Variable` from a tensor and a `requires_grad` flag. -/
def Var (t : Tensor) (rg : Bool) : Variable :=
  { data := t, grad_fn := none, output_nr := 0, requires_grad := rg }

/-- An element of `tag::edge_list`: a gradient function and an input number,
as built by `edgelst.emplace_back(loss.grad_fn(), loss.output_nr())`. -/
structure Edge where
  grad_fn : Option Nat
  input_nr : Nat
deriving DecidableEq

/-- Record of the single call `detail::engine.execute(edgelst, varlst,
keep_graph, create_graph)` made by `backward`: the root edges, the seed
gradient variables, and the two flags. -/
structure EngineCall where
  roots : List Edge
  inputs : List Variable
  keep_graph : Bool
  create_graph : Bool
deriving DecidableEq

/-- Embedding of `backward(Variable, bool)` (detail.cpp lines 21-28): one root
edge from `loss.grad_fn()` and `loss.output_nr()`, one seed gradient
`Var(at::ones_like(loss.data()), false)`, the `keep_graph` flag passed
through, and `create_graph` fixed to `false`. -/
def backward (loss : Variable) (keep_graph : Bool) : EngineCall :=
  { roots := [{ grad_fn := loss.grad_fn, input_nr := loss.output_nr }],
    inputs := [Var (ones_like loss.data) false],
    keep_graph := keep_graph,
    create_graph := false }

/-- Embedding of the `backward(Tensor, bool)` overload (detail.cpp lines
30-33): wrap the tensor in a `Variable` and call the `Variable` overload. -/
def backwardTensor (loss : Tensor) (keep_graph : Bool) : EngineCall :=
  backward (Variable.ofTensor loss) keep_graph

/-- A C `float` payload, modelled by its 32-bit pattern: the `Variant` only
stores and retrieves it, so the bit pattern is all that matters here. -/
structure CFloat where
  bits : Nat
deriving DecidableEq

/-- A C `double` payload, modelled by its 64-bit pattern. -/
structure CDouble where
  bits : Nat
deriving DecidableEq

/-- Embedding of the `Variant` tagged union (detail.cpp lines 76-116): a
`mapbox::util::variant` over `Variable`, `std::string`, a recursive list, a
recursive string-keyed dictionary, `float`, `double`, `bool`, `int32_t` and
`int64_t`.  The `unordered_map` payload is modelled as an association list. -/
inductive Variant where
  | var (x : Variable)
  | str (x : String)
  | list (x : List Variant)
  | dict (x : List (String × Variant))
  | float (x : CFloat)
  | double (x : CDouble)
  | bool (x : Bool)
  | int32 (x : Int)
  | int64 (x : Int)

/-- `Variant::isVariable` — `variant_.is<Variable>()`. -/
def Variant.isVariable : Variant → Bool
  | Variant.var _ => true
  | _ => false

/-- `Variant::isString` — `variant_.is<std::string>()`. -/
def Variant.isString : Variant → Bool
  | Variant.str _ => true
  | _ => false

/-- `Variant::isList` — `variant_.is<recursive_wrapper<vector<Variant>>>()`. -/
def Variant.isList : Variant → Bool
  | Variant.list _ => true
  | _ => false

/-- `Variant::isDict` — membership of the dictionary alternative. -/
def Variant.isDict : Variant → Bool
  | Variant.dict _ => true
  | _ => false

/-- `Variant::isFloat` from `GEN_TYPE(float, Float)`. -/
def Variant.isFloat : Variant → Bool
  | Variant.float _ => true
  | _ => false

/-- `Variant::isDouble` from `GEN_TYPE(double, Double)`. -/
def Variant.isDouble : Variant → Bool
  | Variant.double _ => true
  | _ => false

/-- `Variant::isBool` from `GEN_TYPE(bool, Bool)`. -/
def Variant.isBool : Variant → Bool
  | Variant.bool _ => true
  | _ => false

/-- `Variant::isInt32` from `GEN_TYPE(int32_t, Int32)`. -/
def Variant.isInt32 : Variant → Bool
  | Variant.int32 _ => true
  | _ => false

/-- `Variant::isInt64` from `GEN_TYPE(int64_t, Int64)`. -/
def Variant.isInt64 : Variant → Bool
  | Variant.int64 _ => true
  | _ => false

/-- `Variant::get` — `variant_.get<Variable>()`; fetching the wrong
alternative is the failure branch of the C++ variant, modelled by `none`. -/
def Variant.get : Variant → Option Variable
  | Variant.var x => some x
  | _ => none

/-- `Variant::getString` — `variant_.get<std::string>()`. -/
def Variant.getString : Variant → Option String
  | Variant.str x => some x
  | _ => none

/-- `Variant::getList` — the wrapped `vector<Variant>` payload. -/
def Variant.getList : Variant → Option (List Variant)
  | Variant.list x => some x
  | _ => none

/-- `Variant::getDict` — the wrapped dictionary payload. -/
def Variant.getDict : Variant → Option (List (String × Variant))
  | Variant.dict x => some x
  | _ => none

/-- `Variant::getFloat` from `GEN_TYPE(float, Float)`. -/
def Variant.getFloat : Variant → Option CFloat
  | Variant.float x => some x
  | _ => none

/-- `Variant::getDouble` from `GEN_TYPE(double, Double)`. -/
def Variant.getDouble : Variant → Option CDouble
  | Variant.double x => some x
  | _ => none

/-- `Variant::getBool` from `GEN_TYPE(bool, Bool)`. -/
def Variant.getBool : Variant → Option Bool
  | Variant.bool x => some x
  | _ => none

/-- `Variant::getInt32` from `GEN_TYPE(int32_t, Int32)`. -/
def Variant.getInt32 : Variant → Option Int
  | Variant.int32 x => some x
  | _ => none

/-- `Variant::getInt64` from `GEN_TYPE(int64_t, Int64)`. -/
def Variant.getInt64 : Variant → Option Int
  | Variant.int64 x => some x
  | _ => none

/-- Constructor `Variant::Variant(Variable)` — stores the variable. -/
def Variant.ofVariable (x : Variable) : Variant := Variant.var x

/-- Constructor `Variant::Variant(Tensor)` (detail.cpp line 76) — delegates to
the `Variable` constructor. -/
def Variant.ofTensor (t : Tensor) : Variant :=
  Variant.ofVariable (Variable.ofTensor t)

/-- Constructor `Variant::Variant(const std::string&)`. -/
def Variant.ofString (x : String) : Variant := Variant.str x

/-- Constructors `Variant::Variant(vector<Variant>&)` and the matching move
overload — both store the list payload. -/
def Variant.ofList (x : List Variant) : Variant := Variant.list x

/-- Constructor `Variant::Variant(initializer_list<Variable>)` — builds a list
of variable variants and stores it. -/
def Variant.ofVarList (l : List Variable) : Variant :=
  Variant.list (l.map Variant.ofVariable)

/-- Constructors `Variant::Variant(unordered_map<string, Variant>&)` and the
matching move overload — both store the dictionary payload. -/
def Variant.ofDict (x : List (String × Variant)) : Variant := Variant.dict x

/-- Constructor `Variant::Variant(float)` from `GEN_TYPE(float, Float)`. -/
def Variant.ofFloat (x : CFloat) : Variant := Variant.float x

/-- Constructor `Variant::Variant(double)` from `GEN_TYPE(double, Double)`. -/
def Variant.ofDouble (x : CDouble) : Variant := Variant.double x

/-- Constructor `Variant::Variant(bool)` from `GEN_TYPE(bool, Bool)`. -/
def Variant.ofBool (x : Bool) : Variant := Variant.bool x

/-- Constructor `Variant::Variant(int32_t)` from `GEN_TYPE(int32_t, Int32)`. -/
def Variant.ofInt32 (x : Int) : Variant := Variant.int32 x

/-- Constructor `Variant::Variant(int64_t)` from `GEN_TYPE(int64_t, Int64)`. -/
def Variant.ofInt64 (x : Int) : Variant := Variant.int64 x

/-- Claim C1: with CUDA enabled, `getNumGPUs` returns 0 when the device
enumeration reports `cudaErrorNoDevice`; on any other failure it throws a
runtime error whose message is exactly `"CUDA error (" + code + "): " +
errorString`, hence contains both the numeric error code and the CUDA error
string; and on success it returns the enumerated device count. -/
theorem getNumGPUs_cuda_cases (cfg : BuildConfig) (env : CudaEnv)
    (hc : cfg.cudaEnabled = true) :
    (env.deviceCountResult = cudaErrorNoDevice → getNumGPUs cfg env = Except.ok 0) ∧
    (env.deviceCountResult ≠ cudaErrorNoDevice → env.deviceCountResult ≠ cudaSuccess →
      getNumGPUs cfg env =
        Except.error ("CUDA error (" ++ toString env.deviceCountResult ++ "): "
          ++ env.errorString env.deviceCountResult)) ∧
    (env.deviceCountResult = cudaSuccess → getNumGPUs cfg env = Except.ok env.deviceCount) := by
  refine ⟨fun h => ?_, fun h1 h2 => ?_, fun h => ?_⟩
  · simp [getNumGPUs, hc, h]
  · simp [getNumGPUs, hc, h1, h2]
  · simp [getNumGPUs, hc, h, cudaSuccess, cudaErrorNoDevice]

/-- Witness for C1 at a concrete failing enumeration (error code 2). -/
theorem getNumGPUs_cuda_cases_witness :
    getNumGPUs { cudaEnabled := true, cudnnEnabled := false }
        { deviceCountResult := 2, deviceCount := 0, errorString := fun _ => "out of memory" }
      = Except.error "CUDA error (2): out of memory" := by
  have h := (getNumGPUs_cuda_cases
    { cudaEnabled := true, cudnnEnabled := false }
    { deviceCountResult := 2, deviceCount := 0, errorString := fun _ => "out of memory" }
    rfl).2.1 (by decide) (by decide)
  simpa using h

/-- Claim C6: `hasCuda` returns true exactly when `getNumGPUs` returns a count
strictly greater than 0, and in a build without CUDA `getNumGPUs` always
returns 0 and `hasCuda` always returns false. -/
theorem hasCuda_iff_gpus (cfg : BuildConfig) (env : CudaEnv) :
    (∀ n, getNumGPUs cfg env = Except.ok n →
      (hasCuda cfg env = Except.ok true ↔ 0 < n)) ∧
    (cfg.cudaEnabled = false →
      getNumGPUs cfg env = Except.ok 0 ∧ hasCuda cfg env = Except.ok false) := by
  constructor
  · intro n hn
    simp [hasCuda, hn, Except.map]
  · intro h
    simp [hasCuda, getNumGPUs, h, Except.map]

/-- Witness for C6 in a build without CUDA. -/
theorem hasCuda_iff_gpus_witness :
    getNumGPUs { cudaEnabled := false, cudnnEnabled := false }
        { deviceCountResult := 0, deviceCount := 3, errorString := fun _ => "" }
      = Except.ok 0 ∧
    hasCuda { cudaEnabled := false, cudnnEnabled := false }
        { deviceCountResult := 0, deviceCount := 3, errorString := fun _ => "" }
      = Except.ok false :=
  (hasCuda_iff_gpus
    { cudaEnabled := false, cudnnEnabled := false }
    { deviceCountResult := 0, deviceCount := 3, errorString := fun _ => "" }).2 rfl

/-- Claim C10: `hasCudnn` returns true exactly when `hasCuda` returns true and
cuDNN is enabled at build time; hence `hasCudnn` implies `hasCuda`, and with
zero GPUs `hasCudnn` is false. -/
theorem hasCudnn_requires_cuda (cfg : BuildConfig) (env : CudaEnv) :
    (∀ b, hasCuda cfg env = Except.ok b →
      (hasCudnn cfg env = Except.ok true ↔ b = true ∧ cfg.cudnnEnabled = true)) ∧
    (hasCudnn cfg env = Except.ok true → hasCuda cfg env = Except.ok true) ∧
    (getNumGPUs cfg env = Except.ok 0 → hasCudnn cfg env = Except.ok false) := by
  refine ⟨fun b hb => ?_, fun h => ?_, fun h => ?_⟩
  · simp [hasCudnn, hb, Except.map, Bool.and_eq_true]
  · revert h
    simp only [hasCudnn, hasCuda, Except.map]
    cases getNumGPUs cfg env with
    | error e => intro h; exact absurd h (by simp)
    | ok n =>
      intro h
      simp only [Except.ok.injEq, Bool.and_eq_true] at h ⊢
      exact h.1
  · simp [hasCudnn, hasCuda, h, Except.map]

/-- Witness for C10 with zero GPUs: `hasCudnn` is false even with cuDNN
enabled at build time. -/
theorem hasCudnn_requires_cuda_witness :
    hasCudnn { cudaEnabled := true, cudnnEnabled := true }
        { deviceCountResult := 100, deviceCount := 0, errorString := fun _ => "" }
      = Except.ok false :=
  (hasCudnn_requires_cuda
    { cudaEnabled := true, cudnnEnabled := true }
    { deviceCountResult := 100, deviceCount := 0, errorString := fun _ => "" }).2.2 rfl

/-- Claim C7: `setSeed` always reseeds the CPU default generator with the
given seed; it reseeds the CUDA generators — all of them, with that same
seed — exactly when CUDA is enabled at build time and `getNumGPUs` reports a
strictly positive count; with zero GPUs the CUDA step is skipped, and in that
case (as well as without CUDA) only the CPU seed changes. -/
theorem setSeed_cpu_and_cuda (cfg : BuildConfig) (env : CudaEnv)
    (st : RngState) (seed : Nat) :
    (setSeed cfg env st seed).1.cpuSeed = seed ∧
    (∀ n, cfg.cudaEnabled = true → getNumGPUs cfg env = Except.ok n → 0 < n →
      (setSeed cfg env st seed).1.cudaSeeds = st.cudaSeeds.map (fun _ => seed)) ∧
    (getNumGPUs cfg env = Except.ok 0 →
      (setSeed cfg env st seed).1 = { st with cpuSeed := seed }) ∧
    (cfg.cudaEnabled = false →
      (setSeed cfg env st seed).1 = { st with cpuSeed := seed }) := by
  refine ⟨?_, fun n hc hn hpos => ?_, fun h => ?_, fun h => ?_⟩
  · simp only [setSeed]
    split
    · cases hg : getNumGPUs cfg env with
      | error e => simp [hg]
      | ok n => simp only [hg]; split <;> rfl
    · rfl
  · simp [setSeed, hc, hn, hpos]
  · simp only [setSeed]
    split
    · simp [h]
    · rfl
  · simp [setSeed, h]

/-- Witness for C7: with one GPU and seed 7 every CUDA generator is reseeded
to 7, and with CUDA disabled only the CPU seed changes. -/
theorem setSeed_cpu_and_cuda_witness :
    (setSeed { cudaEnabled := true, cudnnEnabled := false }
        { deviceCountResult := 0, deviceCount := 2, errorString := fun _ => "" }
        { cpuSeed := 0, cudaSeeds := [5, 6] } 7).1.cudaSeeds
      = [5, 6].map (fun _ => 7) ∧
    (setSeed { cudaEnabled := false, cudnnEnabled := false }
        { deviceCountResult := 0, deviceCount := 2, errorString := fun _ => "" }
        { cpuSeed := 0, cudaSeeds := [5, 6] } 7).1
      = { cpuSeed := 7, cudaSeeds := [5, 6] } := by
  constructor
  · exact (setSeed_cpu_and_cuda
      { cudaEnabled := true, cudnnEnabled := false }
      { deviceCountResult := 0, deviceCount := 2, errorString := fun _ => "" }
      { cpuSeed := 0, cudaSeeds := [5, 6] } 7).2.1 2 rfl rfl (by decide)
  · exact (setSeed_cpu_and_cuda
      { cudaEnabled := false, cudnnEnabled := false }
      { deviceCountResult := 0, deviceCount := 2, errorString := fun _ => "" }
      { cpuSeed := 0, cudaSeeds := [5, 6] } 7).2.2.2 rfl

/-- Claim C4: `backward(loss, keep_graph)` calls the engine with exactly one
root edge built from `loss.grad_fn()` and `loss.output_nr()`, exactly one seed
gradient — a non-requires-grad variable of ones with the shape of
`loss.data()` — the `keep_graph` flag unchanged, and `create_graph` fixed to
`false`. -/
theorem backward_engine_call (loss : Variable) (kg : Bool) :
    (backward loss kg).roots = [{ grad_fn := loss.grad_fn, input_nr := loss.output_nr }] ∧
    (backward loss kg).inputs = [Var (ones_like loss.data) false] ∧
    (Var (ones_like loss.data) false).requires_grad = false ∧
    (Var (ones_like loss.data) false).data.shape = loss.data.shape ∧
    (Var (ones_like loss.data) false).data.content = TensorContent.ones ∧
    (backward loss kg).keep_graph = kg ∧
    (backward loss kg).create_graph = false :=
  ⟨rfl, rfl, rfl, rfl, rfl, rfl, rfl⟩

/-- Claim C5: the `Tensor` overload of `backward` is the `Variable` overload
applied to the wrapped tensor — the engine receives the same root edges, seed
gradients and flags from both. -/
theorem backwardTensor_refines_backward (loss : Tensor) (kg : Bool) :
    backwardTensor loss kg = backward (Variable.ofTensor loss) kg ∧
    (backwardTensor loss kg).roots = (backward (Variable.ofTensor loss) kg).roots ∧
    (backwardTensor loss kg).inputs = (backward (Variable.ofTensor loss) kg).inputs ∧
    (backwardTensor loss kg).keep_graph = (backward (Variable.ofTensor loss) kg).keep_graph ∧
    (backwardTensor loss kg).create_graph = (backward (Variable.ofTensor loss) kg).create_graph :=
  ⟨rfl, rfl, rfl, rfl, rfl⟩

/-- Claim C2: every `Variant` value has exactly one active alternative —
exactly one of the nine type predicates returns true. -/
theorem variant_exactly_one_active (v : Variant) :
    [v.isFloat, v.isDouble, v.isBool, v.isInt32, v.isInt64,
      v.isVariable, v.isString, v.isList, v.isDict].count true = 1 := by
  cases v <;> rfl

/-- Claim C3: for each scalar and string payload type, constructing a
`Variant` from a value makes the matching predicate true and the matching
getter return that very value. -/
theorem variant_construct_get_roundtrip
    (f : CFloat) (d : CDouble) (b : Bool) (i j : Int) (s : String) :
    ((Variant.ofFloat f).isFloat = true ∧ (Variant.ofFloat f).getFloat = some f) ∧
    ((Variant.ofDouble d).isDouble = true ∧ (Variant.ofDouble d).getDouble = some d) ∧
    ((Variant.ofBool b).isBool = true ∧ (Variant.ofBool b).getBool = some b) ∧
    ((Variant.ofInt32 i).isInt32 = true ∧ (Variant.ofInt32 i).getInt32 = some i) ∧
    ((Variant.ofInt64 j).isInt64 = true ∧ (Variant.ofInt64 j).getInt64 = some j) ∧
    ((Variant.ofString s).isString = true ∧ (Variant.ofString s).getString = some s) :=
  ⟨⟨rfl, rfl⟩, ⟨rfl, rfl⟩, ⟨rfl, rfl⟩, ⟨rfl, rfl⟩, ⟨rfl, rfl⟩, ⟨rfl, rfl⟩⟩

/-- Claim C8: each getter is well-defined exactly under its predicate — when
the predicate holds the getter returns the stored payload, and when a
different alternative is active the getter hits the failure branch. -/
theorem variant_getter_safety (v : Variant) :
    (v.isFloat = true → ∃ x, v = Variant.float x ∧ v.getFloat = some x) ∧
    (v.isFloat = false → v.getFloat = none) ∧
    (v.isDouble = true → ∃ x, v = Variant.double x ∧ v.getDouble = some x) ∧
    (v.isDouble = false → v.getDouble = none) ∧
    (v.isBool = true → ∃ x, v = Variant.bool x ∧ v.getBool = some x) ∧
    (v.isBool = false → v.getBool = none) ∧
    (v.isInt32 = true → ∃ x, v = Variant.int32 x ∧ v.getInt32 = some x) ∧
    (v.isInt32 = false → v.getInt32 = none) ∧
    (v.isInt64 = true → ∃ x, v = Variant.int64 x ∧ v.getInt64 = some x) ∧
    (v.isInt64 = false → v.getInt64 = none) ∧
    (v.isVariable = true → ∃ x, v = Variant.var x ∧ v.get = some x) ∧
    (v.isVariable = false → v.get = none) ∧
    (v.isString = true → ∃ x, v = Variant.str x ∧ v.getString = some x) ∧
    (v.isString = false → v.getString = none) ∧
    (v.isList = true → ∃ x, v = Variant.list x ∧ v.getList = some x) ∧
    (v.isList = false → v.getList = none) ∧
    (v.isDict = true → ∃ x, v = Variant.dict x ∧ v.getDict = some x) ∧
    (v.isDict = false → v.getDict = none) := by
  cases v <;>
    simp [Variant.isFloat, Variant.isDouble, Variant.isBool, Variant.isInt32,
      Variant.isInt64, Variant.isVariable, Variant.isString, Variant.isList,
      Variant.isDict, Variant.getFloat, Variant.getDouble, Variant.getBool,
      Variant.getInt32, Variant.getInt64, Variant.get, Variant.getString,
      Variant.getList, Variant.getDict]

/-- Witness for C8: on a bool-carrying variant, `getFloat` hits its failure
branch and `getBool` returns the stored payload. -/
theorem variant_getter_safety_witness :
    (Variant.bool true).getFloat = none ∧
    (∃ x, Variant.bool true = Variant.bool x ∧ (Variant.bool true).getBool = some x) :=
  ⟨(variant_getter_safety (Variant.bool true)).2.1 rfl,
   (variant_getter_safety (Variant.bool true)).2.2.2.2.1 rfl⟩

/-- Claim C9: constructing a `Variant` from a `Tensor` delegates to the
`Variable` constructor, so the result is variable-tagged; there is no
tensor-tagged alternative. -/
theorem variant_of_tensor_is_variable (t : Tensor) :
    Variant.ofTensor t = Variant.ofVariable (Variable.ofTensor t) ∧
    (Variant.ofTensor t).isVariable = true ∧
    (Variant.ofTensor t).get = some (Variable.ofTensor t) :=
  ⟨rfl, rfl, rfl⟩

end Autograd
